import Mathlib

/-
Formal model of perceval's RSS backend (src/perceval/backends/core/rss.py).

The source file under verification is rss.py alone.  Its collaborators
(the Backend base class with the @metadata decorator and the cache-queue
helpers, perceval.utils.str_to_datetime, perceval.errors, the Cache class
and the feedparser library) are not part of the source tree; following the
specification they are modelled here by explicit executable definitions,
each marked "Modelled from the spec".  Everything taken from rss.py keeps
the source's names and control flow: an exception becomes an `Except.error`
value, a generator becomes either a run-to-exhaustion function returning
`Except PercevalError (List Record)` or, where laziness itself is at stake,
a small-step generator model (`FetchPhase` / `fetchNext`).
-/

/-- Errors of the embedded program.  `keyError f` models Python's built-in
`KeyError` raised by `item['f']` on a missing field (what the specification
calls `FieldMissingError`); `invalidDateError d` models
`perceval.errors.InvalidDateError` raised by `str_to_datetime` (the
specification's `DateParseError`); `cacheError c` models the generic
`perceval.errors.CacheError` class with its `cause` string; `httpError s`
models `requests.exceptions.HTTPError` from `raise_for_status()`;
`stopIteration` models Python's `StopIteration` from `next()` on an
exhausted iterator. -/
inductive PercevalError where
  | keyError (field : String)
  | invalidDateError (date : String)
  | cacheError (cause : String)
  | httpError (status : Nat)
  | stopIteration
deriving Repr, DecidableEq

/-- Decidable equality of computation outcomes, so that concrete runs can
be settled by evaluation. -/
instance {ε α : Type} [DecidableEq ε] [DecidableEq α] : DecidableEq (Except ε α) := fun a b =>
  match a, b with
  | .error x, .error y =>
      if h : x = y then .isTrue (congrArg Except.error h)
      else .isFalse (fun hc => h (Except.error.inj hc))
  | .ok x, .ok y =>
      if h : x = y then .isTrue (congrArg Except.ok h)
      else .isFalse (fun hc => h (Except.ok.inj hc))
  | .error _, .ok _ => .isFalse (fun hc => Except.noConfusion hc)
  | .ok _, .error _ => .isFalse (fun hc => Except.noConfusion hc)

/-- A parsed feed entry.  The fields rss.py reads are `link` and
`published`; they are optional because a feed entry need not carry them
(accessing a missing one raises `keyError`).  Further feed fields are
irrelevant to every claim and are represented by the optional `title`. -/
structure Entry where
  link : Option String := none
  published : Option String := none
  title : Option String := none
deriving Repr, DecidableEq

/-- A UTC calendar date and time, the result of date parsing. -/
structure Datetime where
  year : Nat
  month : Nat
  day : Nat
  hour : Nat
  minute : Nat
  second : Nat
deriving Repr, DecidableEq

/-- Numeric value of a decimal digit character. -/
def digitVal (c : Char) : Option Nat :=
  if c.isDigit then some (c.toNat - 48) else none

/-- Two decimal digit characters as a number. -/
def num2 (a b : Char) : Option Nat := do
  pure ((← digitVal a) * 10 + (← digitVal b))

/-- Four decimal digit characters as a number. -/
def num4 (a b c d : Char) : Option Nat := do
  pure ((← digitVal a) * 1000 + (← digitVal b) * 100 + (← digitVal c) * 10 + (← digitVal d))

/-- Gregorian leap-year test. -/
def isLeap (y : Nat) : Bool :=
  y % 4 == 0 && (y % 100 != 0 || y % 400 == 0)

/-- Number of days of month `m` in year `y`. -/
def daysInMonth (y m : Nat) : Nat :=
  if m == 2 then (if isLeap y then 29 else 28)
  else if m == 4 || m == 6 || m == 9 || m == 11 then 30
  else 31

/-- Range validity of a parsed calendar date and time. -/
def validDatetime (dt : Datetime) : Bool :=
  1 ≤ dt.year && 1 ≤ dt.month && dt.month ≤ 12 && 1 ≤ dt.day &&
    dt.day ≤ daysInMonth dt.year dt.month &&
    dt.hour < 24 && dt.minute < 60 && dt.second < 60

/-- Modelled from the spec: the general-purpose date parsing inside
`perceval.utils.str_to_datetime`, which accepts common date formats and
normalizes to UTC.  The model parses ISO-8601 UTC strings of the exact
shape `YYYY-MM-DDTHH:MM:SSZ` (the only format the specification's concrete
scenarios use) and treats every other string as unparseable. -/
def parseDatetime (s : String) : Option Datetime :=
  match s.toList with
  | [y1, y2, y3, y4, '-', mo1, mo2, '-', d1, d2, 'T',
     h1, h2, ':', mi1, mi2, ':', s1, s2, 'Z'] => do
      let y ← num4 y1 y2 y3 y4
      let mo ← num2 mo1 mo2
      let d ← num2 d1 d2
      let h ← num2 h1 h2
      let mi ← num2 mi1 mi2
      let sec ← num2 s1 s2
      let dt : Datetime := ⟨y, mo, d, h, mi, sec⟩
      if validDatetime dt then some dt else none
  | _ => none

/-- Modelled from the spec: `perceval.utils.str_to_datetime`, which returns
a UTC datetime for a parseable date string and raises `InvalidDateError`
(the specification's `DateParseError`) otherwise. -/
def str_to_datetime (ts : String) : Except PercevalError Datetime :=
  match parseDatetime ts with
  | some dt => .ok dt
  | none => .error (.invalidDateError ts)

/-- Days before month `m` within year `y` (0 for January). -/
def daysBeforeMonth (y m : Nat) : Nat :=
  (List.range (m - 1)).foldl (fun acc i => acc + daysInMonth y (i + 1)) 0

/-- Days from 0001-01-01 (day 0) to the given date, proleptic Gregorian. -/
def daysFromYear1 (dt : Datetime) : Nat :=
  365 * (dt.year - 1) + (dt.year - 1) / 4 - (dt.year - 1) / 100 + (dt.year - 1) / 400
    + daysBeforeMonth dt.year dt.month + (dt.day - 1)

/-- Value of `daysFromYear1` at 1970-01-01, the UNIX epoch. -/
def epochDays : Nat := 719162

/-- UNIX timestamp (seconds since 1970-01-01T00:00:00Z) of a UTC datetime,
modelling Python's `datetime.timestamp()` on a UTC datetime.  The Python
value is a float; at whole-second precision it is integral, so the model
uses `Int`. -/
def timestamp (dt : Datetime) : Int :=
  86400 * ((daysFromYear1 dt : Int) - (epochDays : Int))
    + 3600 * (dt.hour : Int) + 60 * (dt.minute : Int) + (dt.second : Int)

/-- rss.py line 127: `RSS.metadata_id(item) = str(item['link'])`.
A missing `link` field makes `item['link']` raise `KeyError`. -/
def RSS.metadata_id (item : Entry) : Except PercevalError String :=
  match item.link with
  | some l => .ok l
  | none => .error (.keyError "link")

/-- rss.py lines 141-143: `RSS.metadata_updated_on(item)` parses
`item['published']` with `str_to_datetime` and returns its UNIX timestamp.
A missing `published` field makes `item['published']` raise `KeyError`
before any date parsing happens. -/
def RSS.metadata_updated_on (item : Entry) : Except PercevalError Int :=
  match item.published with
  | none => .error (.keyError "published")
  | some s =>
      match str_to_datetime s with
      | .error e => .error e
      | .ok dt => .ok (timestamp dt)

/-- rss.py line 152: `RSS.metadata_category(item)` is the constant
`'entry'`, for every item, reading no field of it. -/
def RSS.metadata_category (_item : Entry) : String := "entry"

/-- Split a character list on a separator character. -/
def splitOnChar (sep : Char) : List Char → List (List Char)
  | [] => [[]]
  | c :: rest =>
      let r := splitOnChar sep rest
      if c = sep then [] :: r
      else
        match r with
        | [] => [[c]]
        | g :: gs => (c :: g) :: gs

/-- An empty field text stands for an absent field. -/
def optField (cs : List Char) : Option String :=
  if cs.isEmpty then none else some (String.mk cs)

/-- One line of the modelled feed format: `entry|<link>|<published>`
yields an entry, anything else yields nothing. -/
def parseLine (line : List Char) : Option Entry :=
  match splitOnChar '|' line with
  | [['e', 'n', 't', 'r', 'y'], l, p] =>
      some { link := optField l, published := optField p }
  | _ => none

/-- Modelled from the spec: `feedparser.parse`, which converts raw feed
text into an ordered entry sequence, preserving feed order, and yields
zero entries rather than an error on malformed content (the lenient
policy of 4.2).  The RSS/Atom XML details are outside this model; a
line-based encoding stands in for the feed format, with each line
`entry|<link>|<published>` yielding one entry. -/
def feedparser_parse (raw : String) : List Entry :=
  (splitOnChar '\n' raw.toList).filterMap parseLine

/-- rss.py lines 86-88: `RSS.parse_feed(raw)` delegates to
`feedparser.parse`; the pipeline reads its `['entries']` list, inlined
here as the returned list itself. -/
def RSS.parse_feed (raw : String) : List Entry :=
  feedparser_parse raw

/-- Modelled from the spec: the persistent cache collaborator together
with the backend's cache queue.  `committed` is the single-slot persistent
storage read by `retrieve()`; `pending` is the in-memory buffer of
payloads pushed during the current run. -/
structure CacheState where
  committed : List String
  pending : List String
deriving Repr, DecidableEq

/-- Modelled from the spec: `purge()` clears pending (unflushed) state and
leaves persistent storage alone. -/
def cachePurge (c : CacheState) : CacheState :=
  { c with pending := [] }

/-- Modelled from the spec: `push(payload)` appends to the in-memory
buffer and does not touch persistent storage. -/
def cachePush (p : String) (c : CacheState) : CacheState :=
  { c with pending := c.pending ++ [p] }

/-- Modelled from the spec: `flush()` commits the entire pending buffer to
persistent storage as the retrievable unit, then clears the buffer. -/
def cacheFlush (c : CacheState) : CacheState :=
  { committed := c.pending, pending := [] }

/-- Modelled from the spec: `retrieve()` returns the latest committed
payload, taken by the pipeline with `next(self.cache.retrieve())`. -/
def cacheRetrieve (c : CacheState) : Option String :=
  c.committed.head?

/-- Observable side effects of one pipeline run, in order of occurrence:
cache-queue purge, the HTTP GET, a cache-queue push, the cache flush, and
a cache retrieve. -/
inductive Effect where
  | purge
  | httpGet
  | push (payload : String)
  | flush
  | retrieve
deriving Repr, DecidableEq

/-- The mutable world of one pipeline instance: the optional injected
cache collaborator (`None` when the backend was built with `cache=None`)
and the trace of side effects performed so far. -/
structure PState where
  cache : Option CacheState
  trace : List Effect
deriving Repr, DecidableEq

/-- Effect of `self._purge_cache_queue()`. -/
def PState.doPurge (s : PState) : PState :=
  { cache := s.cache.map cachePurge, trace := s.trace ++ [Effect.purge] }

/-- Effect of `self.client.get_entries()` issuing its HTTP GET. -/
def PState.doHttp (s : PState) : PState :=
  { s with trace := s.trace ++ [Effect.httpGet] }

/-- Effect of `self._push_cache_queue(raw)`. -/
def PState.doPush (s : PState) (p : String) : PState :=
  { cache := s.cache.map (cachePush p), trace := s.trace ++ [Effect.push p] }

/-- Effect of `self._flush_cache_queue()`. -/
def PState.doFlush (s : PState) : PState :=
  { cache := s.cache.map cacheFlush, trace := s.trace ++ [Effect.flush] }

/-- Effect of `self.cache.retrieve()`. -/
def PState.doRetrieve (s : PState) : PState :=
  { s with trace := s.trace ++ [Effect.retrieve] }

/-- What `next(self.cache.retrieve())` would see in a state: the latest
committed payload of the configured cache, if any. -/
def PState.retrieveResult (s : PState) : Option String :=
  s.cache.bind cacheRetrieve

/-- The record emitted for one entry. -/
structure Record where
  id : String
  updated_on : Int
  category : String
  data : Entry
deriving Repr, DecidableEq

/-- Modelled from the spec: the `@metadata` decorator of perceval.backend
(4.3 and 4.5 of the specification), which wraps each item yielded by the
fetch generator, at the moment it is yielded, with the identifier, the
update timestamp and the category, the original item nested underneath.
An error in any extractor propagates. -/
def metadataEnvelope (item : Entry) : Except PercevalError Record :=
  match RSS.metadata_id item with
  | .error e => .error e
  | .ok i =>
      match RSS.metadata_updated_on item with
      | .error e => .error e
      | .ok u => .ok { id := i, updated_on := u,
                       category := RSS.metadata_category item, data := item }

/-- The metadata pass over a list of parsed entries, run to exhaustion:
either every entry is enveloped, or the first failure aborts with no
partial list (exactly what collecting the decorated generator yields). -/
def drainFrom : List Entry → Except PercevalError (List Record)
  | [] => .ok []
  | e :: rest =>
      match metadataEnvelope e with
      | .error err => .error err
      | .ok r =>
          match drainFrom rest with
          | .error err => .error err
          | .ok rs => .ok (r :: rs)

/-- rss.py lines 62-84, run to exhaustion under the `@metadata` decorator.
The body of `RSS.fetch`: purge the cache queue, perform the HTTP GET
(whose outcome `resp` is an input of the run, an exception from
`raise_for_status()` propagating), push the raw payload, parse it, flush
the cache queue, then yield the entries one by one, the decorator
enveloping each at yield time. -/
def RSS.fetch_run (resp : Except PercevalError String) (s : PState) :
    Except PercevalError (List Record) × PState :=
  let s1 := (s.doPurge).doHttp
  match resp with
  | .error e => (.error e, s1)
  | .ok raw =>
      let s2 := (s1.doPush raw).doFlush
      (drainFrom (RSS.parse_feed raw), s2)

/-- rss.py lines 90-106, run to exhaustion under the `@metadata`
decorator.  The body of `RSS.fetch_from_cache`: with no cache collaborator
it raises the generic `CacheError` with cause string
`"cache instance was not provided"` (line 100); otherwise it takes
`next(self.cache.retrieve())` (a `StopIteration` escaping when the cache
is empty), parses the cached payload and yields the enveloped entries.
No write operation on the cache occurs. -/
def RSS.fetch_from_cache (s : PState) : Except PercevalError (List Record) × PState :=
  match s.cache with
  | none => (.error (.cacheError "cache instance was not provided"), s)
  | some c =>
      match cacheRetrieve c with
      | none => (.error .stopIteration, s.doRetrieve)
      | some raw => (drainFrom (RSS.parse_feed raw), s.doRetrieve)

/-- The suspended state of the `RSS.fetch` generator: not yet started
(holding the network outcome the run will see), started with the listed
entries still to yield, or finished. -/
inductive FetchPhase where
  | unstarted (resp : Except PercevalError String)
  | yielding (entries : List Entry)
  | finished
deriving Repr

/-- Outcome of one `next()` on the fetch generator. -/
inductive StepOut where
  | yielded (r : Record)
  | stopped
  | raised (e : PercevalError)
deriving Repr, DecidableEq

/-- Yield the head entry, enveloped; an extractor error ends the
generator with that error; an empty rest ends it with `StopIteration`. -/
def yieldHead : List Entry → PState → StepOut × FetchPhase × PState
  | [], s => (.stopped, .finished, s)
  | e :: rest, s =>
      match metadataEnvelope e with
      | .ok r => (.yielded r, .yielding rest, s)
      | .error err => (.raised err, .finished, s)

/-- Calling `RSS.fetch()` in Python builds a generator and executes none
of its body: the state is returned untouched and the whole body is
suspended as `FetchPhase.unstarted`. -/
def RSS.fetch_call (resp : Except PercevalError String) (s : PState) :
    FetchPhase × PState :=
  (.unstarted resp, s)

/-- One `next()` on the fetch generator.  The first `next()` runs the body
of rss.py lines 73-79 up to the first `yield`: purge, HTTP GET, push,
parse, flush, then the first entry is enveloped and yielded; later calls
only envelope and yield the next entry. -/
def fetchNext : FetchPhase → PState → StepOut × FetchPhase × PState
  | .unstarted resp, s =>
      let s1 := (s.doPurge).doHttp
      match resp with
      | .error e => (.raised e, .finished, s1)
      | .ok raw =>
          let s2 := (s1.doPush raw).doFlush
          yieldHead (RSS.parse_feed raw) s2
  | .yielding entries, s => yieldHead entries s
  | .finished, s => (.stopped, .finished, s)

/-- Whether a computation failed with the specification's
`DateParseError`, i.e. the model of `InvalidDateError`. -/
def failedWithDateParseError (r : Except PercevalError Int) : Bool :=
  match r with
  | .error (.invalidDateError _) => true
  | _ => false

/-- Whether a replay run failed with the generic `CacheError` class. -/
def failedWithGenericCacheError (r : Except PercevalError (List Record)) : Bool :=
  match r with
  | .error (.cacheError _) => true
  | _ => false

/-- The metadata pass aborts with no record list as soon as any entry's
envelope fails. -/
theorem drainFrom_error_of_mem {es : List Entry} {e : Entry} {err : PercevalError}
    (hmem : e ∈ es) (herr : metadataEnvelope e = .error err) :
    ∀ rs : List Record, drainFrom es ≠ .ok rs := by
  induction es with
  | nil => cases hmem
  | cons a rest ih =>
      intro rs h
      rcases List.mem_cons.mp hmem with h1 | h2
      · subst h1
        simp [drainFrom, herr] at h
      · cases ha : metadataEnvelope a with
        | error e2 => simp [drainFrom, ha] at h
        | ok r =>
            cases hd : drainFrom rest with
            | error e2 => simp [drainFrom, ha, hd] at h
            | ok rs2 => exact ih h2 rs2 hd

/-- Yielding an entry from the suspended generator performs no side
effect: the extractors are pure, so the state passes through unchanged. -/
theorem yieldHead_state (es : List Entry) (s : PState) : (yieldHead es s).2.2 = s := by
  cases es with
  | nil => rfl
  | cons e rest =>
      cases h : metadataEnvelope e with
      | ok r => simp [yieldHead, h]
      | error err => simp [yieldHead, h]

/-- Claim C7: for every entry, without any precondition on the entry's
contents, `metadata_category` returns the constant string `"entry"`. -/
theorem metadata_category_constant (item : Entry) :
    RSS.metadata_category item = "entry" := rfl

/-- Claim C6: for every entry with a `link` field, `metadata_id` returns
the string coercion of `entry.link`; for every entry without a `link`
field, it fails with the missing-field error (Python's `KeyError`, the
specification's `FieldMissingError`). -/
theorem metadata_id_link_spec :
    (∀ (item : Entry) (l : String), item.link = some l →
        RSS.metadata_id item = .ok l) ∧
    (∀ item : Entry, item.link = none →
        RSS.metadata_id item = .error (.keyError "link")) := by
  constructor
  · intro item l h
    simp [RSS.metadata_id, h]
  · intro item h
    simp [RSS.metadata_id, h]

/-- Witness for C6 at concrete entries. -/
theorem metadata_id_link_spec_witness :
    RSS.metadata_id { link := some "http://x/1" } = .ok "http://x/1" ∧
    RSS.metadata_id { link := none } = .error (.keyError "link") :=
  ⟨metadata_id_link_spec.1 { link := some "http://x/1" } "http://x/1" rfl,
   metadata_id_link_spec.2 { link := none } rfl⟩

/-- Claim C5: for every entry with a valid `published` field,
`metadata_updated_on` equals the UTC UNIX timestamp of the instant that
date denotes; in particular it maps `"2020-01-01T00:00:00Z"` to
1577836800 and `"2020-01-02T00:00:00Z"` to 1577923200 (the Python values
are the floats 1577836800.0 and 1577923200.0, integral at whole-second
precision). -/
theorem metadata_updated_on_spec :
    (∀ (item : Entry) (s : String) (dt : Datetime),
        item.published = some s → parseDatetime s = some dt →
        RSS.metadata_updated_on item = .ok (timestamp dt)) ∧
    RSS.metadata_updated_on { published := some "2020-01-01T00:00:00Z" }
        = .ok 1577836800 ∧
    RSS.metadata_updated_on { published := some "2020-01-02T00:00:00Z" }
        = .ok 1577923200 := by
  refine ⟨fun item s dt hp hd => ?_, by decide, by decide⟩
  simp [RSS.metadata_updated_on, hp, str_to_datetime, hd]

/-- Witness for C5: the general clause applied at the first scenario
date. -/
theorem metadata_updated_on_spec_witness :
    RSS.metadata_updated_on { published := some "2020-01-01T00:00:00Z" }
      = .ok (timestamp ⟨2020, 1, 1, 0, 0, 0⟩) :=
  metadata_updated_on_spec.1 { published := some "2020-01-01T00:00:00Z" }
    "2020-01-01T00:00:00Z" ⟨2020, 1, 1, 0, 0, 0⟩ rfl (by decide)

/-- Counterexample to claim C4 as stated: for an entry whose `published`
field is absent, `metadata_updated_on` fails with the missing-field error
raised by `item['published']` (Python's `KeyError`), not with the
specification's `DateParseError` (`InvalidDateError`): date parsing is
never reached. -/
theorem updated_on_absent_counterexample :
    RSS.metadata_updated_on { link := some "http://x/1", published := none }
        = .error (.keyError "published") ∧
    failedWithDateParseError
        (RSS.metadata_updated_on { link := some "http://x/1", published := none })
        = false := by
  exact ⟨rfl, rfl⟩

/-- Claim C4 amended: an absent `published` field fails with the
missing-field error (`KeyError`, the specification's `FieldMissingError`);
an unparseable `published` field fails with the date-parse error
(`InvalidDateError`, the specification's `DateParseError`); and either
failure of any entry's metadata aborts the whole fetch with no partial
record list. -/
theorem updated_on_failure_spec :
    (∀ item : Entry, item.published = none →
        RSS.metadata_updated_on item = .error (.keyError "published")) ∧
    (∀ (item : Entry) (s : String), item.published = some s →
        parseDatetime s = none →
        RSS.metadata_updated_on item = .error (.invalidDateError s)) ∧
    (∀ (raw : String) (st : PState) (e : Entry) (err : PercevalError),
        e ∈ RSS.parse_feed raw → metadataEnvelope e = .error err →
        ∀ rs : List Record, (RSS.fetch_run (.ok raw) st).1 ≠ .ok rs) := by
  refine ⟨fun item h => ?_, fun item s hp hd => ?_, fun raw st e err hmem herr rs => ?_⟩
  · simp [RSS.metadata_updated_on, h]
  · simp [RSS.metadata_updated_on, hp, str_to_datetime, hd]
  · simpa [RSS.fetch_run] using drainFrom_error_of_mem hmem herr rs

/-- Witness for the amended C4 at concrete inputs: a missing date, an
unparseable date, and a run whose single entry has an unparseable date. -/
theorem updated_on_failure_spec_witness :
    RSS.metadata_updated_on { link := some "http://x/1", published := none }
        = .error (.keyError "published") ∧
    RSS.metadata_updated_on { published := some "notadate" }
        = .error (.invalidDateError "notadate") ∧
    (RSS.fetch_run (.ok "entry|http://x/1|notadate")
        ⟨some ⟨[], []⟩, []⟩).1 ≠ .ok [] :=
  ⟨updated_on_failure_spec.1 { link := some "http://x/1", published := none } rfl,
   updated_on_failure_spec.2.1 { published := some "notadate" } "notadate" rfl (by decide),
   updated_on_failure_spec.2.2 "entry|http://x/1|notadate" ⟨some ⟨[], []⟩, []⟩
     ⟨some "http://x/1", some "notadate", none⟩ (.invalidDateError "notadate")
     (by decide) (by decide) []⟩

/-- Counterexample to claim C2 as stated: with no cache collaborator, the
replay fetch raises the generic `CacheError` class (rss.py line 100) with
cause `"cache instance was not provided"` — the very class the method's
own docstring designates for any error accessing the cache — and not a
distinct `CacheUnavailableError` class, which does not exist in the code. -/
theorem fetch_from_cache_nocache_counterexample :
    (RSS.fetch_from_cache ⟨none, []⟩).1
        = .error (.cacheError "cache instance was not provided") ∧
    failedWithGenericCacheError (RSS.fetch_from_cache ⟨none, []⟩).1 = true := by
  exact ⟨rfl, rfl⟩

/-- Claim C2 amended: for every pipeline instance with no cache
collaborator, the replay fetch fails with the generic `CacheError`
carrying cause `"cache instance was not provided"` (distinguished from
other cache failures only by that cause string, not by a distinct class),
and leaves the state untouched: in particular no network access and no
cache operation is performed. -/
theorem fetch_from_cache_nocache_spec :
    ∀ s : PState, s.cache = none →
      RSS.fetch_from_cache s
        = (.error (.cacheError "cache instance was not provided"), s) := by
  intro s h
  obtain ⟨c, tr⟩ := s
  simp only [PState.mk.injEq] at h ⊢
  subst h
  rfl

/-- Witness for the amended C2 at the concrete unconfigured state. -/
theorem fetch_from_cache_nocache_spec_witness :
    RSS.fetch_from_cache ⟨none, []⟩
      = (.error (.cacheError "cache instance was not provided"), ⟨none, []⟩) :=
  fetch_from_cache_nocache_spec ⟨none, []⟩ rfl

/-- Counterexample to claim C1 as stated: a run whose single parsed entry
has an unparseable `published` date.  Metadata extraction raises (the run
returns the date-parse error), yet `flush` was invoked and the payload
committed: rss.py calls `_flush_cache_queue()` immediately after
`parse_feed` (line 79) and before any entry is yielded, while the
`@metadata` decorator extracts metadata only at yield time. -/
theorem flush_before_metadata_counterexample :
    (RSS.fetch_run (.ok "entry|http://x/1|notadate")
        ⟨some ⟨["old"], []⟩, []⟩).1 = .error (.invalidDateError "notadate") ∧
    Effect.flush ∈ (RSS.fetch_run (.ok "entry|http://x/1|notadate")
        ⟨some ⟨["old"], []⟩, []⟩).2.trace ∧
    (RSS.fetch_run (.ok "entry|http://x/1|notadate")
        ⟨some ⟨["old"], []⟩, []⟩).2.cache
      = some ⟨["entry|http://x/1|notadate"], []⟩ := by decide

/-- Claim C1 amended: in a live fetch, `flush` is invoked exactly when the
network retrieval succeeds, immediately after the parse step and before
any metadata extraction; if retrieval fails, `flush` (and `push`) is never
invoked; a metadata-extraction error does not prevent `flush`, which has
already committed the payload (the parse step itself is lenient and does
not raise). -/
theorem flush_timing_spec :
    (∀ (e : PercevalError) (s : PState),
        (RSS.fetch_run (.error e) s).2.trace
          = s.trace ++ [Effect.purge, Effect.httpGet]) ∧
    (∀ (raw : String) (s : PState),
        (RSS.fetch_run (.ok raw) s).2.trace
          = s.trace ++ [Effect.purge, Effect.httpGet, Effect.push raw, Effect.flush]) := by
  constructor
  · intro e s
    simp [RSS.fetch_run, PState.doPurge, PState.doHttp]
  · intro raw s
    simp [RSS.fetch_run, PState.doPurge, PState.doHttp, PState.doPush, PState.doFlush]

/-- Claim C3: after a successful live fetch, `retrieve()` returns exactly
the raw payload fetched in that run; after a live fetch failing before
`flush` is reached (in this model, a failing network retrieval — the only
pre-flush failure point, parsing being lenient and `purge`/`push` leaving
persistent storage alone), `retrieve()` returns whatever the previous
successful run committed. -/
theorem cache_atomicity_spec :
    (∀ (raw : String) (c : CacheState) (tr : List Effect) (rs : List Record),
        (RSS.fetch_run (.ok raw) ⟨some c, tr⟩).1 = .ok rs →
        ((RSS.fetch_run (.ok raw) ⟨some c, tr⟩).2).retrieveResult = some raw) ∧
    (∀ (e : PercevalError) (s : PState),
        ((RSS.fetch_run (.error e) s).2).retrieveResult = s.retrieveResult) := by
  constructor
  · intro raw c tr rs _h
    simp [RSS.fetch_run, PState.doPurge, PState.doHttp, PState.doPush, PState.doFlush,
          PState.retrieveResult, cachePurge, cachePush, cacheFlush, cacheRetrieve]
  · intro e s
    obtain ⟨c, tr⟩ := s
    cases c with
    | none => rfl
    | some cs =>
        simp [RSS.fetch_run, PState.doPurge, PState.doHttp,
              PState.retrieveResult, cachePurge, cacheRetrieve]

/-- Witness for C3: a successful concrete run whose committed payload is
then the one `retrieve()` returns. -/
theorem cache_atomicity_spec_witness :
    ((RSS.fetch_run (.ok "entry|http://x/1|2020-01-01T00:00:00Z")
        ⟨some ⟨["old"], []⟩, []⟩).2).retrieveResult
      = some "entry|http://x/1|2020-01-01T00:00:00Z" :=
  cache_atomicity_spec.1 "entry|http://x/1|2020-01-01T00:00:00Z" ⟨["old"], []⟩ []
    [⟨"http://x/1", 1577836800, "entry",
      ⟨some "http://x/1", some "2020-01-01T00:00:00Z", none⟩⟩]
    (by decide)

/-- Claim C8: when the fetched raw payload is the empty string, `parse`
yields zero entries with no error, the live fetch still commits the empty
payload to the cache (so `retrieve()` then returns it) and yields no
records. -/
theorem empty_payload_spec :
    RSS.parse_feed "" = [] ∧
    RSS.fetch_run (.ok "") ⟨some ⟨["old"], []⟩, []⟩
      = (.ok [], ⟨some ⟨[""], []⟩,
          [Effect.purge, Effect.httpGet, Effect.push "", Effect.flush]⟩) ∧
    ((RSS.fetch_run (.ok "") ⟨some ⟨["old"], []⟩, []⟩).2).retrieveResult
      = some "" := by decide

/-- Claim C9: for every cache state, invoking the replay fetch twice in a
row with no intervening live fetch yields the identical outcome both
times, and the cache is never modified by a replay (read-only: only the
observability trace records the retrieve). -/
theorem replay_idempotent_spec :
    ∀ s : PState,
      (RSS.fetch_from_cache s).1
          = (RSS.fetch_from_cache (RSS.fetch_from_cache s).2).1 ∧
      (RSS.fetch_from_cache s).2.cache = s.cache ∧
      (RSS.fetch_from_cache (RSS.fetch_from_cache s).2).2.cache = s.cache := by
  intro s
  obtain ⟨c, tr⟩ := s
  cases c with
  | none => exact ⟨rfl, rfl, rfl⟩
  | some cs =>
      cases h : cacheRetrieve cs with
      | none => simp [RSS.fetch_from_cache, PState.doRetrieve, h]
      | some raw => simp [RSS.fetch_from_cache, PState.doRetrieve, h]

/-- Claim C10: invoking `fetch()` by itself performs no side effect — the
generator is returned with the state untouched — and all of `purge`, the
HTTP GET, `push` and `flush` happen during the computation of the first
element (or of the exhaustion of an empty feed), later elements causing no
further effect.  The parse step, a pure computation, also runs there. -/
theorem fetch_lazy_spec :
    (∀ (resp : Except PercevalError String) (s : PState),
        RSS.fetch_call resp s = (FetchPhase.unstarted resp, s)) ∧
    (∀ (raw : String) (s : PState),
        (fetchNext (FetchPhase.unstarted (.ok raw)) s).2.2.trace
          = s.trace ++ [Effect.purge, Effect.httpGet, Effect.push raw, Effect.flush]) ∧
    (∀ (e : PercevalError) (s : PState),
        (fetchNext (FetchPhase.unstarted (.error e)) s).2.2.trace
          = s.trace ++ [Effect.purge, Effect.httpGet]) ∧
    (∀ (entries : List Entry) (s : PState),
        (fetchNext (FetchPhase.yielding entries) s).2.2 = s) := by
  refine ⟨fun _ _ => rfl, fun raw s => ?_, fun e s => ?_, fun es s => yieldHead_state es s⟩
  · show (yieldHead (RSS.parse_feed raw) (((s.doPurge).doHttp.doPush raw).doFlush)).2.2.trace = _
    rw [yieldHead_state]
    simp [PState.doPurge, PState.doHttp, PState.doPush, PState.doFlush]
  · simp [fetchNext, PState.doPurge, PState.doHttp]
